/-
Verification of the Heimdall Battery Sentinel battery-tracking core.

This file gives a shallow embedding of the battery-tracking logic of
custom_components/heimdall_battery_sentinel (event_handlers.py, runtime.py,
websocket_handlers.py, const.py, and the legacy inline copy of the handler in
the package init module), and proves or refutes the frozen claims about it.

Modelling conventions:
- Python float values are modelled by rationals; the claims only depend on
  comparisons and value equality, not on binary floating-point representation.
- Python dicts keyed by entity_id are modelled by association lists with the
  in-place-update semantics of dict assignment (alGet, alInsert, alErase).
- float(...) applied to a state string is modelled by parseFloat, covering
  plain decimal literals with optional sign and fraction.
- Notification calls (notify_frontend_update) made by a handler are returned
  as an explicit list of Notif records instead of being performed.
- The subscriber fan-out models connection.send_message raising for a given
  subscriber by a boolean predicate sendOk.
-/

import Mathlib

/-- Digit character to its numeric value. -/
def digitVal (c : Char) : Nat := c.toNat - 48

/-- Numeric value of a list of decimal digit characters. -/
def digitsToNat (cs : List Char) : Nat := cs.foldl (fun n c => 10 * n + digitVal c) 0

/-- Split a character list at the first dot, if any. -/
def breakOnDot : List Char → List Char × Option (List Char)
  | [] => ([], Option.none)
  | c :: rest =>
    if c = '.' then ([], some rest)
    else
      let r := breakOnDot rest
      (c :: r.1, r.2)

/-- Unsigned decimal literal: digits with at most one dot and at least one digit. -/
def parseUnsignedFloat (cs : List Char) : Option ℚ :=
  let p := breakOnDot cs
  match p.2 with
  | Option.none =>
    if p.1 ≠ [] ∧ p.1.all Char.isDigit then some ((digitsToNat p.1 : ℚ)) else Option.none
  | some fp =>
    if (p.1 ≠ [] ∨ fp ≠ []) ∧ p.1.all Char.isDigit ∧ fp.all Char.isDigit then
      some ((digitsToNat p.1 : ℚ) + (digitsToNat fp : ℚ) / ((10 : ℚ) ^ fp.length))
    else Option.none

/-- Models Python float() applied to a string: optional surrounding whitespace,
optional sign, decimal digits with at most one decimal point. Scientific
notation, inf and nan are not modelled; none of the claims depend on them. -/
def parseFloat (s : String) : Option ℚ :=
  let cs := ((s.toList.dropWhile Char.isWhitespace).reverse.dropWhile Char.isWhitespace).reverse
  match cs with
  | '+' :: rest => parseUnsignedFloat rest
  | '-' :: rest => (parseUnsignedFloat rest).map Neg.neg
  | _ => parseUnsignedFloat cs

/-- A Home Assistant attribute value, as far as float() coercion is concerned. -/
inductive AttrVal where
  | str (s : String)
  | num (q : ℚ)
deriving DecidableEq, Repr

/-- Models Python float() applied to an attribute value. -/
def pyFloat : AttrVal → Option ℚ
  | .num q => some q
  | .str s => parseFloat s

/-- One entity state snapshot, as exposed by hass.states: the raw state string
and the attributes read by the integration (device_class, battery,
friendly_name, unit_of_measurement), plus the two timestamps. -/
structure Snapshot where
  state : String
  device_class : Option String
  battery : Option AttrVal
  friendly_name : Option String
  unit_of_measurement : Option String
  last_changed : String
  last_updated : String
deriving DecidableEq, Repr

/-- homeassistant.const.STATE_UNAVAILABLE. -/
def STATE_UNAVAILABLE : String := "unavailable"

/-- homeassistant.const.STATE_UNKNOWN. -/
def STATE_UNKNOWN : String := "unknown"

/-- const.py: DEFAULT_THRESHOLD = 20. -/
def DEFAULT_THRESHOLD : Int := 20

/-- A config entry, restricted to the single key CONF_THRESHOLD the integration
reads from entry.options and entry.data. -/
structure ConfigEntry where
  entry_id : String
  options_threshold : Option Int
  data_threshold : Option Int
deriving DecidableEq, Repr

/-- runtime.py threshold_for_entry: options override data; fallback DEFAULT_THRESHOLD. -/
def threshold_for_entry (entry : ConfigEntry) : Int :=
  entry.options_threshold.getD (entry.data_threshold.getD DEFAULT_THRESHOLD)

/-- The battery_data dict built by both handler implementations. -/
structure BatteryData where
  entity_id : String
  battery_level : ℚ
  friendly_name : String
  state_value : String
  unit : String
  is_low : Bool
  last_changed : String
  last_updated : String
deriving DecidableEq, Repr

/-- The battery_data dict literal (event_handlers.py lines 198-207, and the
identical literal in the init module): friendly_name defaults to the entity id,
unit defaults to the empty string, is_low is battery_level <= threshold. -/
def battery_data (entity_id : String) (state : Snapshot) (battery_level : ℚ)
    (threshold : Int) : BatteryData :=
  { entity_id := entity_id
    battery_level := battery_level
    friendly_name := state.friendly_name.getD entity_id
    state_value := state.state
    unit := state.unit_of_measurement.getD ""
    is_low := decide (battery_level ≤ (threshold : ℚ))
    last_changed := state.last_changed
    last_updated := state.last_updated }

/-- Dict lookup d.get(k): first binding of the key. -/
def alGet {β : Type} (k : String) : List (String × β) → Option β
  | [] => Option.none
  | (k2, v) :: rest => if k2 = k then some v else alGet k rest

/-- Dict assignment d[k] = v: replace the binding in place, or append. -/
def alInsert {β : Type} (k : String) (v : β) : List (String × β) → List (String × β)
  | [] => [(k, v)]
  | (k2, v2) :: rest => if k2 = k then (k, v) :: rest else (k2, v2) :: alInsert k v rest

/-- Dict removal d.pop(k, None): drop the binding of the key, if present. -/
def alErase {β : Type} (k : String) : List (String × β) → List (String × β)
  | [] => []
  | (k2, v2) :: rest => if k2 = k then rest else (k2, v2) :: alErase k rest

/-- Keys are pairwise distinct, as in every Python dict. -/
def NodupKeys {β : Type} (m : List (String × β)) : Prop := (m.map Prod.fst).Nodup

/-- The per-session registry: the DATA_ALL_BATTERIES and DATA_LOW_BATTERIES
dicts of the entry runtime. -/
structure Registry where
  all_batteries : List (String × BatteryData)
  low_batteries : List (String × BatteryData)
deriving DecidableEq, Repr

/-- One call to notify_frontend_update, recorded instead of performed. -/
structure Notif where
  reason : String
  entity_id : String
deriving DecidableEq, Repr

/-- event_handlers.py _is_battery_state: the snapshot exists and its
device_class attribute is the literal "battery". -/
def _is_battery_state (state : Option Snapshot) : Bool :=
  match state with
  | Option.none => false
  | some st => decide (st.device_class = some "battery")

/-- event_handlers.py _is_battery_entity: _is_battery_state of the current
state of the entity. -/
def _is_battery_entity (states : String → Option Snapshot) (entity_id : String) : Bool :=
  _is_battery_state (states entity_id)

/-- The battery-level extraction chain shared verbatim by the two handler
implementations (event_handlers.py lines 172-189, init module lines 434-465):
try float(state.state); on failure try float of the battery attribute when
present; otherwise no level. -/
def extract_battery_level (state : Snapshot) : Option ℚ :=
  match parseFloat state.state with
  | some battery_level => some battery_level
  | Option.none =>
    match state.battery with
    | some battery_attr => pyFloat battery_attr
    | Option.none => Option.none

/-- event_handlers.py _remove_battery_entity: pop the entity from both maps and
notify with the given reason when either pop actually removed something. -/
def _remove_battery_entity (reg : Registry) (entity_id reason : String) :
    Registry × List Notif :=
  let removed_from_all := (alGet entity_id reg.all_batteries).isSome
  let removed_from_low := (alGet entity_id reg.low_batteries).isSome
  let reg2 : Registry :=
    ⟨alErase entity_id reg.all_batteries, alErase entity_id reg.low_batteries⟩
  if removed_from_all || removed_from_low then (reg2, [⟨reason, entity_id⟩])
  else (reg2, [])

/-- event_handlers.py _handle_battery_state_change (lines 147-226): on the
unavailable or unknown sentinels remove from both maps; on a failed level
extraction remove with reason non_numeric_battery; otherwise rebuild the
all_batteries record, sync low_batteries against the freshly resolved
threshold, and notify with reason state_update when either map entry for the
entity changed by value. -/
def _handle_battery_state_change (entry : ConfigEntry) (reg : Registry)
    (entity_id : String) (state : Snapshot) : Registry × List Notif :=
  if state.state = STATE_UNAVAILABLE ∨ state.state = STATE_UNKNOWN then
    _remove_battery_entity reg entity_id "state_unavailable_or_unknown"
  else
    match extract_battery_level state with
    | Option.none => _remove_battery_entity reg entity_id "non_numeric_battery"
    | some battery_level =>
      let threshold := threshold_for_entry entry
      let old_all_data := alGet entity_id reg.all_batteries
      let old_low_data := alGet entity_id reg.low_batteries
      let bd := battery_data entity_id state battery_level threshold
      let all_batteries := alInsert entity_id bd reg.all_batteries
      let low_batteries :=
        if battery_level ≤ (threshold : ℚ) then alInsert entity_id bd reg.low_batteries
        else alErase entity_id reg.low_batteries
      let reg2 : Registry := ⟨all_batteries, low_batteries⟩
      if old_all_data ≠ alGet entity_id all_batteries
          ∨ old_low_data ≠ alGet entity_id low_batteries then
        (reg2, [⟨"state_update", entity_id⟩])
      else (reg2, [])

/-- The legacy _handle_battery_state_change inlined in the package init module
(lines 398-529): on the unavailable or unknown sentinels it only pops the
entity from low_batteries and leaves all_batteries untouched; on a failed
level extraction it returns with no change; on success it performs the same
map updates as the event_handlers version. It never calls
notify_frontend_update, so it returns only the registry. -/
def init_handle_battery_state_change (entry : ConfigEntry) (reg : Registry)
    (entity_id : String) (state : Snapshot) : Registry :=
  if state.state = STATE_UNAVAILABLE ∨ state.state = STATE_UNKNOWN then
    { reg with low_batteries := alErase entity_id reg.low_batteries }
  else
    match extract_battery_level state with
    | Option.none => reg
    | some battery_level =>
      let threshold := entry.options_threshold.getD
        (entry.data_threshold.getD DEFAULT_THRESHOLD)
      let bd := battery_data entity_id state battery_level threshold
      let all_batteries := alInsert entity_id bd reg.all_batteries
      let low_batteries :=
        if battery_level ≤ (threshold : ℚ) then alInsert entity_id bd reg.low_batteries
        else alErase entity_id reg.low_batteries
      ⟨all_batteries, low_batteries⟩

/-- event_handlers.py async_battery_state_listener: skip falsy entity ids;
dispatch battery snapshots to the handler; drop tracked entities that are no
longer battery snapshots with reason removed_or_not_battery. -/
def async_battery_state_listener (entry : ConfigEntry) (reg : Registry)
    (entity_id : String) (new_state : Option Snapshot) : Registry × List Notif :=
  if entity_id = "" then (reg, [])
  else
    let is_tracked := (alGet entity_id reg.all_batteries).isSome
    let is_battery_now := _is_battery_state new_state
    if is_battery_now then
      match new_state with
      | some st => _handle_battery_state_change entry reg entity_id st
      | Option.none => (reg, [])
    else if is_tracked then
      _remove_battery_entity reg entity_id "removed_or_not_battery"
    else (reg, [])

/-- event_handlers.py async_entity_registry_updated: on create evaluate newly
discovered battery entities; on remove drop the entity with reason
entity_removed; on update re-evaluate battery snapshots and drop everything
else with reason entity_updated_not_battery. -/
def async_entity_registry_updated (states : String → Option Snapshot)
    (entry : ConfigEntry) (reg : Registry) (action entity_id : String) :
    Registry × List Notif :=
  if entity_id = "" then (reg, [])
  else if action = "create" then
    if _is_battery_entity states entity_id then
      match states entity_id with
      | some state => _handle_battery_state_change entry reg entity_id state
      | Option.none => (reg, [])
    else (reg, [])
  else if action = "remove" then
    _remove_battery_entity reg entity_id "entity_removed"
  else if action = "update" then
    match states entity_id with
    | some state =>
      if _is_battery_state (some state) then
        _handle_battery_state_change entry reg entity_id state
      else _remove_battery_entity reg entity_id "entity_updated_not_battery"
    | Option.none => _remove_battery_entity reg entity_id "entity_updated_not_battery"
  else (reg, [])

/-- Invariant I2 of the spec: an entity id is a key of low_batteries iff its
all_batteries record exists and has is_low true. -/
def InvariantI2 (reg : Registry) : Prop :=
  ∀ e : String,
    (alGet e reg.low_batteries).isSome = true
      ↔ ∃ bd, alGet e reg.all_batteries = some bd ∧ bd.is_low = true

/-- One websocket subscriber: a (connection, subscription id) pair. -/
structure Subscriber where
  connection : Nat
  subscription_id : Nat
deriving DecidableEq, Repr

/-- The full payload pushed to subscribers: both maps as value lists, the
threshold, and the reason and entity id of the triggering change. -/
structure NotifyPayload where
  all_batteries : List BatteryData
  low_batteries : List BatteryData
  threshold : Int
  reason : String
  entity_id : String
deriving DecidableEq, Repr

/-- The for-loop of notify_frontend_update: try to send the payload to every
subscriber in order; a subscriber whose send raises (sendOk false) is collected
into the stale list instead of receiving, without stopping the loop. Returns
(messages sent, stale subscribers), both in iteration order. -/
def fanout (sendOk : Subscriber → Bool) (payload : NotifyPayload) :
    List Subscriber → List (Subscriber × NotifyPayload) × List Subscriber
  | [] => ([], [])
  | s :: rest =>
    let r := fanout sendOk payload rest
    if sendOk s then ((s, payload) :: r.1, r.2) else (r.1, s :: r.2)

/-- websocket_handlers.py notify_frontend_update: return immediately with no
payload when there are no subscribers; otherwise build the full payload, fan
it out, and afterwards remove all stale subscribers from the session list in
one batch. Returns (messages sent, new subscriber list). -/
def notify_frontend_update (sendOk : Subscriber → Bool) (entry : ConfigEntry)
    (reg : Registry) (subscribers : List Subscriber) (reason entity_id : String) :
    List (Subscriber × NotifyPayload) × List Subscriber :=
  if subscribers = [] then ([], subscribers)
  else
    let payload : NotifyPayload :=
      { all_batteries := reg.all_batteries.map Prod.snd
        low_batteries := reg.low_batteries.map Prod.snd
        threshold := threshold_for_entry entry
        reason := reason
        entity_id := entity_id }
    let r := fanout sendOk payload subscribers
    let stale_subscribers := r.2
    let subscribers2 :=
      if stale_subscribers ≠ [] then
        subscribers.filter (fun sub => decide (¬ sub ∈ stale_subscribers))
      else subscribers
    (r.1, subscribers2)

/-- The DATA_UNSUB cleanup-callback state of one entry runtime. Callbacks are
identified by number; invoking one is modelled by appending its id to the
invocation log. -/
structure CleanupState where
  unsub : List Nat
  invoked : List Nat
deriving DecidableEq, Repr

/-- runtime.py unsubscribe_all: copy the registered cleanup callbacks, clear
the runtime list, invoke every copied callback in order, and return how many
were invoked. -/
def unsubscribe_all (st : CleanupState) : CleanupState × Nat :=
  let unsubscribers := st.unsub
  ({ unsub := [], invoked := st.invoked ++ unsubscribers }, unsubscribers.length)

/-- hass.data[DOMAIN]: the per-entry-id runtime registries. -/
def SessionStore : Type := List (String × Registry)

/-- runtime.py get_entry_runtime: hass.data.get(DOMAIN, {}).get(entry_id, {}). -/
def get_entry_runtime (store : SessionStore) (entry_id : String) : Registry :=
  (alGet entry_id store).getD ⟨[], []⟩

/-- runtime.py get_primary_entry: the first config entry, if any. -/
def get_primary_entry (entries : List ConfigEntry) : Option ConfigEntry :=
  entries.head?

/-- A snapshot-query payload; a missing field models a key popped from the
response dict. -/
structure QueryPayload where
  all_batteries : Option (List BatteryData)
  low_batteries : Option (List BatteryData)
  threshold : Int
deriving DecidableEq, Repr

/-- runtime.py build_payload: both maps as value lists plus the threshold. -/
def build_payload (store : SessionStore) (entry : ConfigEntry) : QueryPayload :=
  let entry_data := get_entry_runtime store entry.entry_id
  { all_batteries := some (entry_data.all_batteries.map Prod.snd)
    low_batteries := some (entry_data.low_batteries.map Prod.snd)
    threshold := threshold_for_entry entry }

/-- A websocket command outcome: connection.send_result or connection.send_error. -/
inductive WsResponse where
  | result (payload : QueryPayload)
  | error (code : String) (message : String)
deriving DecidableEq, Repr

/-- An HTTP outcome of the data view: web.json_response with a status. -/
inductive HttpResponse where
  | json (status : Nat) (payload : QueryPayload)
  | jsonError (status : Nat) (message : String)
deriving DecidableEq, Repr

/-- websocket_handlers.py websocket_get_low_batteries: no_config error when no
entry exists; otherwise the payload without its all_batteries key. The session
store is returned unchanged, as the source performs no mutation. -/
def websocket_get_low_batteries (entries : List ConfigEntry) (store : SessionStore) :
    SessionStore × WsResponse :=
  match get_primary_entry entries with
  | Option.none =>
    (store, .error "no_config" "No Heimdall Battery Sentinel configuration found")
  | some entry =>
    let p := build_payload store entry
    (store, .result { p with all_batteries := Option.none })

/-- websocket_handlers.py websocket_get_all_batteries: no_config error when no
entry exists; otherwise the payload without its low_batteries key. -/
def websocket_get_all_batteries (entries : List ConfigEntry) (store : SessionStore) :
    SessionStore × WsResponse :=
  match get_primary_entry entries with
  | Option.none =>
    (store, .error "no_config" "No Heimdall Battery Sentinel configuration found")
  | some entry =>
    let p := build_payload store entry
    (store, .result { p with low_batteries := Option.none })

/-- The combined get_data websocket command of the init module: no_config
error when no entry exists; otherwise both maps and the threshold. -/
def websocket_get_battery_data (entries : List ConfigEntry) (store : SessionStore) :
    SessionStore × WsResponse :=
  match entries with
  | [] =>
    (store, .error "no_config" "No Heimdall Battery Sentinel configuration found")
  | entry :: _ =>
    let entry_data := get_entry_runtime store entry.entry_id
    let threshold := entry.options_threshold.getD
      (entry.data_threshold.getD DEFAULT_THRESHOLD)
    (store, .result
      { all_batteries := some (entry_data.all_batteries.map Prod.snd)
        low_batteries := some (entry_data.low_batteries.map Prod.snd)
        threshold := threshold })

/-- BatteryMonitorDataView.get of the init module: HTTP 404 with an error body
when no entry exists; otherwise HTTP 200 with both maps and the threshold. -/
def batteryMonitorDataView_get (entries : List ConfigEntry) (store : SessionStore) :
    SessionStore × HttpResponse :=
  match entries with
  | [] =>
    (store, .jsonError 404 "No Heimdall Battery Sentinel configuration found")
  | entry :: _ =>
    let entry_data := get_entry_runtime store entry.entry_id
    let threshold := entry.options_threshold.getD
      (entry.data_threshold.getD DEFAULT_THRESHOLD)
    (store, .json 200
      { all_batteries := some (entry_data.all_batteries.map Prod.snd)
        low_batteries := some (entry_data.low_batteries.map Prod.snd)
        threshold := threshold })

/-- A config entry with neither an options nor a data threshold: the active
threshold is the hardcoded fallback 20. -/
def defaultCfg : ConfigEntry := ⟨"entry1", Option.none, Option.none⟩

/-- The entity id of the removal scenario of the spec. -/
def kitchenId : String := "sensor.kitchen_battery"

/-- Snapshot of the kitchen battery at 12 percent. -/
def snap12 : Snapshot :=
  ⟨"12", some "battery", Option.none, some "Kitchen Battery", some "%", "t1", "t1"⟩

/-- Snapshot of the kitchen battery after its state became unavailable. -/
def snapUnavail : Snapshot :=
  ⟨"unavailable", some "battery", Option.none, some "Kitchen Battery", some "%", "t2", "t2"⟩

/-- Snapshot of the kitchen battery with a state that parses as no float and
no battery attribute to fall back to. -/
def snapGarbled : Snapshot :=
  ⟨"hello", some "battery", Option.none, some "Kitchen Battery", some "%", "t3", "t3"⟩

/-- The record the code builds for the kitchen battery at 12 percent under
threshold 20: low, since 12 is at most 20. -/
def kitchenBd : BatteryData :=
  { entity_id := kitchenId
    battery_level := 12
    friendly_name := "Kitchen Battery"
    state_value := "12"
    unit := "%"
    is_low := true
    last_changed := "t1"
    last_updated := "t1" }

/-- The registry after the kitchen battery was evaluated at 12 percent under
threshold 20: tracked and low. -/
def regKitchen : Registry := ⟨[(kitchenId, kitchenBd)], [(kitchenId, kitchenBd)]⟩

lemma alGet_alInsert_self {β : Type} (k : String) (v : β) (m : List (String × β)) :
    alGet k (alInsert k v m) = some v := by
  induction m with
  | nil => simp [alGet, alInsert]
  | cons kv rest ih =>
    obtain ⟨k2, v2⟩ := kv
    by_cases h : k2 = k
    · simp [alInsert, alGet, h]
    · simp [alInsert, alGet, h, ih]

lemma alInsert_alInsert_self {β : Type} (k : String) (v : β) (m : List (String × β)) :
    alInsert k v (alInsert k v m) = alInsert k v m := by
  induction m with
  | nil => simp [alInsert]
  | cons kv rest ih =>
    obtain ⟨k2, v2⟩ := kv
    by_cases h : k2 = k
    · simp [alInsert, h]
    · simp [alInsert, h, ih]

lemma alGet_eq_none_of_not_mem {β : Type} (k : String) (m : List (String × β))
    (h : k ∉ m.map Prod.fst) : alGet k m = Option.none := by
  induction m with
  | nil => simp [alGet]
  | cons kv rest ih =>
    obtain ⟨k2, v2⟩ := kv
    simp only [List.map_cons, List.mem_cons] at h
    push_neg at h
    have hne : k2 ≠ k := fun he => h.1 (by simp [he])
    simp [alGet, hne, ih h.2]

lemma alGet_alErase_self {β : Type} (k : String) (m : List (String × β))
    (h : NodupKeys m) : alGet k (alErase k m) = Option.none := by
  induction m with
  | nil => simp [alErase, alGet]
  | cons kv rest ih =>
    obtain ⟨k2, v2⟩ := kv
    have h2 := h
    unfold NodupKeys at h2
    simp only [List.map_cons, List.nodup_cons] at h2
    by_cases he : k2 = k
    · subst he
      simp only [alErase, if_pos rfl]
      exact alGet_eq_none_of_not_mem k2 rest h2.1
    · simp only [alErase, if_neg he, alGet, if_neg he]
      exact ih h2.2

lemma alErase_of_alGet_none {β : Type} (k : String) (m : List (String × β))
    (h : alGet k m = Option.none) : alErase k m = m := by
  induction m with
  | nil => simp [alErase]
  | cons kv rest ih =>
    obtain ⟨k2, v2⟩ := kv
    by_cases he : k2 = k
    · simp [alGet, he] at h
    · simp only [alGet, if_neg he] at h
      simp [alErase, he, ih h]

lemma alGet_alErase_of_none {β : Type} (k e : String) (m : List (String × β))
    (h : alGet e m = Option.none) : alGet e (alErase k m) = Option.none := by
  induction m with
  | nil => simp [alErase, alGet]
  | cons kv rest ih =>
    obtain ⟨k2, v2⟩ := kv
    by_cases he : k2 = e
    · simp [alGet, he] at h
    · simp only [alGet, if_neg he] at h
      by_cases hk : k2 = k
      · simp only [alErase, if_pos hk]
        exact h
      · simp only [alErase, if_neg hk, alGet, if_neg he]
        exact ih h

lemma remove_eq (reg : Registry) (entity_id reason : String) :
    _remove_battery_entity reg entity_id reason
      = (⟨alErase entity_id reg.all_batteries, alErase entity_id reg.low_batteries⟩,
         if ((alGet entity_id reg.all_batteries).isSome
              || (alGet entity_id reg.low_batteries).isSome) = true then
           [⟨reason, entity_id⟩]
         else []) := by
  unfold _remove_battery_entity
  split <;> rename_i h <;> simp [h]

lemma handle_sentinel (entry : ConfigEntry) (reg : Registry) (entity_id : String)
    (state : Snapshot)
    (hs : state.state = STATE_UNAVAILABLE ∨ state.state = STATE_UNKNOWN) :
    _handle_battery_state_change entry reg entity_id state
      = _remove_battery_entity reg entity_id "state_unavailable_or_unknown" := by
  unfold _handle_battery_state_change
  rw [if_pos hs]

lemma handle_nonnumeric (entry : ConfigEntry) (reg : Registry) (entity_id : String)
    (state : Snapshot)
    (hs : ¬(state.state = STATE_UNAVAILABLE ∨ state.state = STATE_UNKNOWN))
    (hq : extract_battery_level state = Option.none) :
    _handle_battery_state_change entry reg entity_id state
      = _remove_battery_entity reg entity_id "non_numeric_battery" := by
  unfold _handle_battery_state_change
  rw [if_neg hs, hq]

lemma handle_success (entry : ConfigEntry) (reg : Registry) (entity_id : String)
    (state : Snapshot) (q : ℚ)
    (hs : ¬(state.state = STATE_UNAVAILABLE ∨ state.state = STATE_UNKNOWN))
    (hq : extract_battery_level state = some q) :
    _handle_battery_state_change entry reg entity_id state
      = (⟨alInsert entity_id (battery_data entity_id state q (threshold_for_entry entry))
            reg.all_batteries,
          if q ≤ (threshold_for_entry entry : ℚ) then
            alInsert entity_id (battery_data entity_id state q (threshold_for_entry entry))
              reg.low_batteries
          else alErase entity_id reg.low_batteries⟩,
         if alGet entity_id reg.all_batteries
              ≠ some (battery_data entity_id state q (threshold_for_entry entry))
            ∨ alGet entity_id reg.low_batteries
              ≠ alGet entity_id
                  (if q ≤ (threshold_for_entry entry : ℚ) then
                    alInsert entity_id
                      (battery_data entity_id state q (threshold_for_entry entry))
                      reg.low_batteries
                  else alErase entity_id reg.low_batteries) then
           [⟨"state_update", entity_id⟩]
         else []) := by
  unfold _handle_battery_state_change
  rw [if_neg hs, hq]
  simp only [alGet_alInsert_self]
  split <;> (split <;> rename_i h2 <;> simp [h2])

/-- C1: the claim says invariant I2 (entity in low_batteries iff its
all_batteries record exists with is_low true) holds after every evaluation of
an event. The event_handlers implementation preserves it here, but the legacy
handler inlined in the package init module — the one its setup actually wires
to the event bus — breaks it on the unavailable path: evaluating the
unavailable snapshot for the tracked low kitchen battery pops the entity from
low_batteries only, leaving its all_batteries record with is_low true. The
pre-state is exactly what evaluating the 12 percent snapshot from an empty
registry produces. -/
theorem c1_invariant_i2_after_unavailable_evaluation :
    (_handle_battery_state_change defaultCfg ⟨[], []⟩ kitchenId snap12).1 = regKitchen
    ∧ InvariantI2 regKitchen
    ∧ ¬ InvariantI2
        (init_handle_battery_state_change defaultCfg regKitchen kitchenId snapUnavail)
    ∧ InvariantI2
        (_handle_battery_state_change defaultCfg regKitchen kitchenId snapUnavail).1 := by
  refine ⟨by decide, ?_, ?_, ?_⟩
  · intro e
    by_cases he : kitchenId = e
    · subst he
      constructor
      · intro _
        exact ⟨kitchenBd, by simp [regKitchen, alGet], rfl⟩
      · intro _
        simp [regKitchen, alGet]
    · simp [regKitchen, alGet, he]
  · intro h
    have h2 := (h kitchenId).mpr ⟨kitchenBd, by decide, rfl⟩
    exact absurd h2 (by decide)
  · have hafter :
        (_handle_battery_state_change defaultCfg regKitchen kitchenId snapUnavail).1
          = ⟨[], []⟩ := by decide
    rw [hafter]
    intro e
    simp [alGet]

/-- C2: the claim says that evaluating an unavailable or unparseable snapshot
for a tracked entity removes it from both maps and fires exactly one
notification naming the cause. The event_handlers implementation does exactly
that, but the legacy handler inlined in the package init module — the live
one — pops an unavailable entity from low_batteries only (keeping its
all_batteries record) and, for an unparseable snapshot, keeps the stale
record in both maps; it fires no notification on either path. -/
theorem c2_removal_paths_divergence :
    (alGet kitchenId regKitchen.all_batteries).isSome = true
    ∧ (alGet kitchenId regKitchen.low_batteries).isSome = true
    ∧ (init_handle_battery_state_change defaultCfg regKitchen kitchenId
        snapUnavail).all_batteries = regKitchen.all_batteries
    ∧ alGet kitchenId (init_handle_battery_state_change defaultCfg regKitchen kitchenId
        snapUnavail).low_batteries = Option.none
    ∧ alGet kitchenId (_handle_battery_state_change defaultCfg regKitchen kitchenId
        snapUnavail).1.all_batteries = Option.none
    ∧ alGet kitchenId (_handle_battery_state_change defaultCfg regKitchen kitchenId
        snapUnavail).1.low_batteries = Option.none
    ∧ (_handle_battery_state_change defaultCfg regKitchen kitchenId snapUnavail).2
        = [⟨"state_unavailable_or_unknown", kitchenId⟩]
    ∧ init_handle_battery_state_change defaultCfg regKitchen kitchenId snapGarbled
        = regKitchen
    ∧ alGet kitchenId (_handle_battery_state_change defaultCfg regKitchen kitchenId
        snapGarbled).1.all_batteries = Option.none
    ∧ (_handle_battery_state_change defaultCfg regKitchen kitchenId snapGarbled).2
        = [⟨"non_numeric_battery", kitchenId⟩] := by
  decide

/-- C3: idempotence of the event_handlers evaluation: for every entity and
snapshot, evaluating the identical snapshot twice in a row (same
configuration) leaves the registry exactly as after the first evaluation and
the second evaluation makes zero notification calls. The key-uniqueness
hypotheses state what holds of every Python dict. -/
theorem c3_second_identical_evaluation_is_silent (entry : ConfigEntry) (reg : Registry)
    (entity_id : String) (state : Snapshot)
    (hall : NodupKeys reg.all_batteries) (hlow : NodupKeys reg.low_batteries) :
    _handle_battery_state_change entry
        (_handle_battery_state_change entry reg entity_id state).1 entity_id state
      = ((_handle_battery_state_change entry reg entity_id state).1, []) := by
  by_cases hs : state.state = STATE_UNAVAILABLE ∨ state.state = STATE_UNKNOWN
  · rw [handle_sentinel entry reg entity_id state hs, remove_eq]
    rw [handle_sentinel _ _ _ _ hs, remove_eq]
    have h1 := alGet_alErase_self entity_id reg.all_batteries hall
    have h2 := alGet_alErase_self entity_id reg.low_batteries hlow
    simp [h1, h2, alErase_of_alGet_none]
  · cases hq : extract_battery_level state with
    | none =>
      rw [handle_nonnumeric entry reg entity_id state hs hq, remove_eq]
      rw [handle_nonnumeric _ _ _ _ hs hq, remove_eq]
      have h1 := alGet_alErase_self entity_id reg.all_batteries hall
      have h2 := alGet_alErase_self entity_id reg.low_batteries hlow
      simp [h1, h2, alErase_of_alGet_none]
    | some q =>
      rw [handle_success entry reg entity_id state q hs hq]
      by_cases hql : q ≤ (threshold_for_entry entry : ℚ)
      · rw [if_pos hql]
        rw [handle_success _ _ _ _ q hs hq, if_pos hql]
        simp [alGet_alInsert_self, alInsert_alInsert_self]
      · rw [if_neg hql]
        rw [handle_success _ _ _ _ q hs hq, if_neg hql]
        have h2 := alGet_alErase_self entity_id reg.low_batteries hlow
        simp [alGet_alInsert_self, alInsert_alInsert_self, h2,
          alErase_of_alGet_none]

/-- Witness for C3: the kitchen battery snapshot evaluated twice in a row from
the registry in which it is already tracked and low. -/
theorem c3_second_identical_evaluation_is_silent_witness :
    NodupKeys regKitchen.all_batteries ∧ NodupKeys regKitchen.low_batteries
    ∧ _handle_battery_state_change defaultCfg
        (_handle_battery_state_change defaultCfg regKitchen kitchenId snap12).1
        kitchenId snap12
      = ((_handle_battery_state_change defaultCfg regKitchen kitchenId snap12).1, []) := by
  have h1 : NodupKeys regKitchen.all_batteries := by unfold NodupKeys; decide
  have h2 : NodupKeys regKitchen.low_batteries := by unfold NodupKeys; decide
  exact ⟨h1, h2,
    c3_second_identical_evaluation_is_silent defaultCfg regKitchen kitchenId snap12 h1 h2⟩

/-- Snapshot of a camera battery at 15 percent. -/
def snap15 : Snapshot :=
  ⟨"15", some "battery", Option.none, some "Cam", some "%", "t6", "t6"⟩

/-- Snapshot of the fallback-parse scenario: non-numeric state "home" with a
numeric battery attribute of 55. -/
def snapHome : Snapshot :=
  ⟨"home", some "battery", some (.num 55), some "Phone", Option.none, "t4", "t4"⟩

/-- C4: fallback parse: a battery-device-class snapshot whose raw state string
does not parse as a float but whose battery attribute parses as a float is
tracked with battery_level equal to the parsed attribute value; the record is
exactly the one built from that level and the freshly resolved threshold. The
state string is tried first, which is why its parse failure is the hypothesis
under which the attribute decides the level. -/
theorem c4_battery_attribute_fallback (entry : ConfigEntry) (reg : Registry)
    (entity_id : String) (state : Snapshot) (battery_attr : AttrVal) (q : ℚ)
    (hid : entity_id ≠ "")
    (hdc : state.device_class = some "battery")
    (hs : ¬(state.state = STATE_UNAVAILABLE ∨ state.state = STATE_UNKNOWN))
    (hparse : parseFloat state.state = Option.none)
    (hattr : state.battery = some battery_attr)
    (hq : pyFloat battery_attr = some q) :
    alGet entity_id
        (async_battery_state_listener entry reg entity_id (some state)).1.all_batteries
      = some (battery_data entity_id state q (threshold_for_entry entry))
    ∧ (battery_data entity_id state q (threshold_for_entry entry)).battery_level = q := by
  have hext : extract_battery_level state = some q := by
    unfold extract_battery_level
    rw [hparse, hattr]
    exact hq
  have hlist : async_battery_state_listener entry reg entity_id (some state)
      = _handle_battery_state_change entry reg entity_id state := by
    unfold async_battery_state_listener
    rw [if_neg hid]
    simp [_is_battery_state, hdc]
  constructor
  · rw [hlist, handle_success entry reg entity_id state q hs hext]
    simp [alGet_alInsert_self]
  · rfl

/-- Witness for C4 at the spec scenario: state "home", battery attribute 55,
default threshold 20: tracked at level 55 and not low. -/
theorem c4_battery_attribute_fallback_witness :
    parseFloat "home" = Option.none
    ∧ (alGet "sensor.phone"
          (async_battery_state_listener defaultCfg ⟨[], []⟩ "sensor.phone"
            (some snapHome)).1.all_batteries
        = some (battery_data "sensor.phone" snapHome 55 (threshold_for_entry defaultCfg))
      ∧ (battery_data "sensor.phone" snapHome 55
          (threshold_for_entry defaultCfg)).battery_level = 55)
    ∧ (battery_data "sensor.phone" snapHome 55
        (threshold_for_entry defaultCfg)).is_low = false := by
  refine ⟨by decide, ?_, by decide⟩
  exact c4_battery_attribute_fallback defaultCfg ⟨[], []⟩ "sensor.phone" snapHome
    (.num 55) 55 (by decide) rfl (by decide) (by decide) rfl rfl

/-- An external event fed to the event_handlers listeners: a state_changed
event carrying the new snapshot, or an entity_registry_updated event carrying
its action string. -/
inductive ExtEvent where
  | state_changed (entity_id : String) (new_state : Option Snapshot)
  | registry_updated (action : String) (entity_id : String)
deriving DecidableEq, Repr

/-- Dispatch one external event to the listener event_handlers.py registers
for that event type. -/
def dispatch_event (states : String → Option Snapshot) (entry : ConfigEntry)
    (reg : Registry) : ExtEvent → Registry × List Notif
  | .state_changed entity_id new_state =>
    async_battery_state_listener entry reg entity_id new_state
  | .registry_updated action entity_id =>
    async_entity_registry_updated states entry reg action entity_id

/-- The entity an event involves. -/
def event_entity : ExtEvent → String
  | .state_changed entity_id _ => entity_id
  | .registry_updated _ entity_id => entity_id

/-- The snapshot the listeners classify for an event: the new state for a
state_changed event, the current state of the entity for a registry event. -/
def event_snapshot (states : String → Option Snapshot) : ExtEvent → Option Snapshot
  | .state_changed _ new_state => new_state
  | .registry_updated _ entity_id => states entity_id

/-- C5: an entity whose classified snapshot does not have device_class
"battery" is never given an entry: any state-change or registry event whose
snapshot fails the battery test leaves an absent entity absent in both maps,
whatever the action, the other attributes or the state value. -/
theorem c5_non_battery_never_tracked (states : String → Option Snapshot)
    (entry : ConfigEntry) (reg : Registry) (ev : ExtEvent) (e : String)
    (hnb : _is_battery_state (event_snapshot states ev) = false)
    (hall : alGet e reg.all_batteries = Option.none)
    (hlow : alGet e reg.low_batteries = Option.none) :
    alGet e (dispatch_event states entry reg ev).1.all_batteries = Option.none
    ∧ alGet e (dispatch_event states entry reg ev).1.low_batteries = Option.none := by
  cases ev with
  | state_changed entity_id new_state =>
    simp only [event_snapshot] at hnb
    simp only [dispatch_event]
    unfold async_battery_state_listener
    by_cases hid : entity_id = ""
    · simp [hid, hall, hlow]
    · rw [if_neg hid, hnb]
      by_cases htr : (alGet entity_id reg.all_batteries).isSome = true
      · simp only [Bool.false_eq_true, if_false, htr, if_true, remove_eq]
        exact ⟨alGet_alErase_of_none _ _ _ hall, alGet_alErase_of_none _ _ _ hlow⟩
      · simp only [Bool.false_eq_true, if_false, htr]
        exact ⟨hall, hlow⟩
  | registry_updated action entity_id =>
    simp only [event_snapshot] at hnb
    simp only [dispatch_event]
    unfold async_entity_registry_updated
    by_cases hid : entity_id = ""
    · simp [hid, hall, hlow]
    · rw [if_neg hid]
      by_cases hc : action = "create"
      · rw [if_pos hc]
        unfold _is_battery_entity
        rw [hnb]
        simp [hall, hlow]
      · rw [if_neg hc]
        by_cases hr : action = "remove"
        · rw [if_pos hr, remove_eq]
          exact ⟨alGet_alErase_of_none _ _ _ hall, alGet_alErase_of_none _ _ _ hlow⟩
        · rw [if_neg hr]
          by_cases hu : action = "update"
          · rw [if_pos hu]
            cases hst : states entity_id with
            | none =>
              rw [remove_eq]
              exact ⟨alGet_alErase_of_none _ _ _ hall, alGet_alErase_of_none _ _ _ hlow⟩
            | some st =>
              rw [hst] at hnb
              dsimp only
              rw [hnb]
              simp only [Bool.false_eq_true, if_false, remove_eq]
              exact ⟨alGet_alErase_of_none _ _ _ hall, alGet_alErase_of_none _ _ _ hlow⟩
          · rw [if_neg hu]
            exact ⟨hall, hlow⟩

/-- Witness for C5: a registry update for a temperature sensor with a numeric
state, against the kitchen registry: no entry is created for it. -/
theorem c5_non_battery_never_tracked_witness :
    _is_battery_state
        (event_snapshot (fun _ => some ⟨"42", some "temperature", Option.none,
          Option.none, Option.none, "t5", "t5"⟩)
          (.registry_updated "update" "sensor.temp")) = false
    ∧ alGet "sensor.temp" regKitchen.all_batteries = Option.none
    ∧ alGet "sensor.temp" regKitchen.low_batteries = Option.none
    ∧ (alGet "sensor.temp"
        (dispatch_event (fun _ => some ⟨"42", some "temperature", Option.none,
          Option.none, Option.none, "t5", "t5"⟩) defaultCfg regKitchen
          (.registry_updated "update" "sensor.temp")).1.all_batteries = Option.none
      ∧ alGet "sensor.temp"
        (dispatch_event (fun _ => some ⟨"42", some "temperature", Option.none,
          Option.none, Option.none, "t5", "t5"⟩) defaultCfg regKitchen
          (.registry_updated "update" "sensor.temp")).1.low_batteries = Option.none) := by
  refine ⟨by decide, by decide, by decide, ?_⟩
  exact c5_non_battery_never_tracked
    (fun _ => some ⟨"42", some "temperature", Option.none, Option.none, Option.none,
      "t5", "t5"⟩)
    defaultCfg regKitchen (.registry_updated "update" "sensor.temp") "sensor.temp"
    (by decide) (by decide) (by decide)

/-- C6: on every successful evaluation the stored record is built against the
threshold resolved fresh from the configuration passed to that evaluation:
the same snapshot evaluated under two configurations yields the record of the
respective resolved threshold, whose is_low compares the level against it;
and threshold_for_entry resolves options first, then data, then the
hardcoded fallback DEFAULT_THRESHOLD = 20. -/
theorem c6_threshold_resolved_fresh_each_evaluation (entry1 entry2 : ConfigEntry)
    (reg1 reg2 : Registry) (entity_id : String) (state : Snapshot) (q : ℚ)
    (hs : ¬(state.state = STATE_UNAVAILABLE ∨ state.state = STATE_UNKNOWN))
    (hq : extract_battery_level state = some q) :
    alGet entity_id
        (_handle_battery_state_change entry1 reg1 entity_id state).1.all_batteries
      = some (battery_data entity_id state q (threshold_for_entry entry1))
    ∧ alGet entity_id
        (_handle_battery_state_change entry2 reg2 entity_id state).1.all_batteries
      = some (battery_data entity_id state q (threshold_for_entry entry2))
    ∧ (battery_data entity_id state q (threshold_for_entry entry1)).is_low
      = decide (q ≤ (threshold_for_entry entry1 : ℚ))
    ∧ (∀ id t d, threshold_for_entry ⟨id, some t, d⟩ = t)
    ∧ (∀ id d, threshold_for_entry ⟨id, Option.none, some d⟩ = d)
    ∧ (∀ id, threshold_for_entry ⟨id, Option.none, Option.none⟩ = DEFAULT_THRESHOLD)
    ∧ DEFAULT_THRESHOLD = 20 := by
  refine ⟨?_, ?_, rfl, fun id t d => rfl, fun id d => rfl, fun id => rfl, rfl⟩
  · rw [handle_success entry1 reg1 entity_id state q hs hq]
    simp [alGet_alInsert_self]
  · rw [handle_success entry2 reg2 entity_id state q hs hq]
    simp [alGet_alInsert_self]

/-- Witness for C6: level 15 evaluated under an options threshold of 10 (data
50 ignored) is not low, and under the fallback threshold 20 is low. -/
theorem c6_threshold_resolved_fresh_each_evaluation_witness :
    ¬(snap15.state = STATE_UNAVAILABLE ∨ snap15.state = STATE_UNKNOWN)
    ∧ extract_battery_level snap15 = some 15
    ∧ (alGet "sensor.cam"
          (_handle_battery_state_change ⟨"e2", some 10, some 50⟩ ⟨[], []⟩ "sensor.cam"
            snap15).1.all_batteries
        = some (battery_data "sensor.cam" snap15 15
            (threshold_for_entry ⟨"e2", some 10, some 50⟩))
      ∧ alGet "sensor.cam"
          (_handle_battery_state_change defaultCfg ⟨[], []⟩ "sensor.cam"
            snap15).1.all_batteries
        = some (battery_data "sensor.cam" snap15 15 (threshold_for_entry defaultCfg))
      ∧ (battery_data "sensor.cam" snap15 15
          (threshold_for_entry ⟨"e2", some 10, some 50⟩)).is_low
        = decide ((15 : ℚ) ≤ (threshold_for_entry ⟨"e2", some 10, some 50⟩ : ℚ))
      ∧ (∀ id t d, threshold_for_entry ⟨id, some t, d⟩ = t)
      ∧ (∀ id d, threshold_for_entry ⟨id, Option.none, some d⟩ = d)
      ∧ (∀ id, threshold_for_entry ⟨id, Option.none, Option.none⟩ = DEFAULT_THRESHOLD)
      ∧ DEFAULT_THRESHOLD = 20)
    ∧ (battery_data "sensor.cam" snap15 15
        (threshold_for_entry ⟨"e2", some 10, some 50⟩)).is_low = false
    ∧ (battery_data "sensor.cam" snap15 15 (threshold_for_entry defaultCfg)).is_low
        = true := by
  refine ⟨by decide, by decide, ?_, by decide, by decide⟩
  exact c6_threshold_resolved_fresh_each_evaluation ⟨"e2", some 10, some 50⟩ defaultCfg
    ⟨[], []⟩ ⟨[], []⟩ "sensor.cam" snap15 15 (by decide) (by decide)

lemma fanout_sent (sendOk : Subscriber → Bool) (payload : NotifyPayload)
    (subs : List Subscriber) :
    (fanout sendOk payload subs).1 = (subs.filter sendOk).map (fun s => (s, payload)) := by
  induction subs with
  | nil => rfl
  | cons s rest ih =>
    by_cases h : sendOk s
    · simp [fanout, List.filter_cons, h, ih]
    · simp [fanout, List.filter_cons, h, ih]

lemma fanout_stale (sendOk : Subscriber → Bool) (payload : NotifyPayload)
    (subs : List Subscriber) :
    (fanout sendOk payload subs).2 = subs.filter (fun s => !(sendOk s)) := by
  induction subs with
  | nil => rfl
  | cons s rest ih =>
    by_cases h : sendOk s
    · simp [fanout, List.filter_cons, h, ih]
    · simp [fanout, List.filter_cons, h, ih]

lemma map_fst_pair {β : Type} (payload : β) (l : List Subscriber) :
    (l.map (fun s => (s, payload))).map Prod.fst = l := by
  induction l with
  | nil => rfl
  | cons s rest ih => simp [ih]

lemma notify_sent (sendOk : Subscriber → Bool) (entry : ConfigEntry) (reg : Registry)
    (subs : List Subscriber) (reason entity_id : String) :
    (notify_frontend_update sendOk entry reg subs reason entity_id).1.map Prod.fst
      = subs.filter sendOk := by
  unfold notify_frontend_update
  by_cases he : subs = []
  · simp [he]
  · rw [if_neg he]
    simp only [fanout_sent]
    exact map_fst_pair _ _

lemma notify_new_subscribers (sendOk : Subscriber → Bool) (entry : ConfigEntry)
    (reg : Registry) (subs : List Subscriber) (reason entity_id : String) :
    (notify_frontend_update sendOk entry reg subs reason entity_id).2
      = subs.filter sendOk := by
  unfold notify_frontend_update
  by_cases he : subs = []
  · simp [he]
  · rw [if_neg he]
    simp only [fanout_stale]
    by_cases hst : subs.filter (fun s => !(sendOk s)) = []
    · rw [if_neg (by simp [hst])]
      have hall : ∀ s ∈ subs, sendOk s = true := by
        intro s hsm
        by_contra hno
        have hmem : s ∈ subs.filter (fun s => !(sendOk s)) :=
          List.mem_filter.mpr ⟨hsm, by simp [hno]⟩
        rw [hst] at hmem
        simp at hmem
      exact (List.filter_eq_self.mpr hall).symm
    · rw [if_pos hst]
      apply List.filter_congr
      intro s hsm
      rcases Bool.eq_false_or_eq_true (sendOk s) with hok | hok
      · have hmem : s ∉ subs.filter (fun s => !(sendOk s)) := by
          intro hc
          have hpc := (List.mem_filter.mp hc).2
          simp [hok] at hpc
        simp [hok, hmem]
      · have hmem : s ∈ subs.filter (fun s => !(sendOk s)) :=
          List.mem_filter.mpr ⟨hsm, by simp [hok]⟩
        simp [hok, hmem]

lemma filter_filter_self (sendOk : Subscriber → Bool) (subs : List Subscriber) :
    (subs.filter sendOk).filter sendOk = subs.filter sendOk :=
  List.filter_eq_self.mpr (fun _ hsm => (List.mem_filter.mp hsm).2)

/-- C7: in one notification fan-out, every subscriber whose delivery succeeds
receives the payload regardless of failures elsewhere in the list; the failing
subscribers are exactly the ones removed from the session list, in one batch
after the pass; and a subsequent notification to the pruned list again reaches
every surviving subscriber. With two subscribers of which one raises, this
specializes to the spec scenario. -/
theorem c7_failing_subscriber_is_isolated_and_pruned (sendOk : Subscriber → Bool)
    (entry entry2 : ConfigEntry) (reg reg2 : Registry) (subs : List Subscriber)
    (reason entity_id reason2 entity_id2 : String) :
    (notify_frontend_update sendOk entry reg subs reason entity_id).1.map Prod.fst
      = subs.filter sendOk
    ∧ (notify_frontend_update sendOk entry reg subs reason entity_id).2
      = subs.filter sendOk
    ∧ (notify_frontend_update sendOk entry2 reg2 (subs.filter sendOk)
        reason2 entity_id2).1.map Prod.fst = subs.filter sendOk := by
  refine ⟨notify_sent sendOk entry reg subs reason entity_id,
    notify_new_subscribers sendOk entry reg subs reason entity_id, ?_⟩
  rw [notify_sent sendOk entry2 reg2 (subs.filter sendOk) reason2 entity_id2]
  exact filter_filter_self sendOk subs

/-- C8: teardown runs every registered cleanup callback exactly once (the
invocation log grows by exactly the registered list, with per-callback
multiplicity preserved), clears the cleanup list, returns the number of
callbacks run, and a second teardown runs nothing and returns zero. -/
theorem c8_teardown_runs_each_callback_once (st : CleanupState) :
    (unsubscribe_all st).1.unsub = []
    ∧ (unsubscribe_all st).1.invoked = st.invoked ++ st.unsub
    ∧ (unsubscribe_all st).2 = st.unsub.length
    ∧ (∀ c, ((unsubscribe_all st).1.invoked).count c
        = st.invoked.count c + st.unsub.count c)
    ∧ unsubscribe_all (unsubscribe_all st).1 = ((unsubscribe_all st).1, 0) := by
  refine ⟨rfl, rfl, rfl, fun c => ?_, ?_⟩
  · simp [unsubscribe_all, List.count_append]
  · simp [unsubscribe_all]

/-- C9: every snapshot query issued when no config entry exists returns the
distinguishable not-configured outcome (websocket error code no_config, HTTP
404 for the data view) and passes the session store through unchanged. -/
theorem c9_queries_without_configuration (store : SessionStore) :
    websocket_get_low_batteries [] store
      = (store, .error "no_config" "No Heimdall Battery Sentinel configuration found")
    ∧ websocket_get_all_batteries [] store
      = (store, .error "no_config" "No Heimdall Battery Sentinel configuration found")
    ∧ websocket_get_battery_data [] store
      = (store, .error "no_config" "No Heimdall Battery Sentinel configuration found")
    ∧ batteryMonitorDataView_get [] store
      = (store, .jsonError 404 "No Heimdall Battery Sentinel configuration found") :=
  ⟨rfl, rfl, rfl, rfl⟩

/-- C10: the two coexisting handler implementations agree on the
successful-parse path: for a snapshot that is not unavailable or unknown and
whose state string or battery attribute yields a level, both produce the same
all_batteries and low_batteries maps from the same starting registry and
configuration. -/
theorem c10_handlers_agree_on_successful_parse (entry : ConfigEntry) (reg : Registry)
    (entity_id : String) (state : Snapshot) (q : ℚ)
    (hs : ¬(state.state = STATE_UNAVAILABLE ∨ state.state = STATE_UNKNOWN))
    (hq : extract_battery_level state = some q) :
    (_handle_battery_state_change entry reg entity_id state).1
      = init_handle_battery_state_change entry reg entity_id state := by
  rw [handle_success entry reg entity_id state q hs hq]
  unfold init_handle_battery_state_change
  rw [if_neg hs, hq]
  by_cases hql : q ≤ (threshold_for_entry entry : ℚ)
  · simp [threshold_for_entry, hql]
  · simp [threshold_for_entry, hql]

/-- Witness for C10: the kitchen battery snapshot at 12 percent evaluated by
both implementations from the registry where it is already tracked. -/
theorem c10_handlers_agree_on_successful_parse_witness :
    ¬(snap12.state = STATE_UNAVAILABLE ∨ snap12.state = STATE_UNKNOWN)
    ∧ extract_battery_level snap12 = some 12
    ∧ (_handle_battery_state_change defaultCfg regKitchen kitchenId snap12).1
      = init_handle_battery_state_change defaultCfg regKitchen kitchenId snap12 := by
  refine ⟨by decide, by decide, ?_⟩
  exact c10_handlers_agree_on_successful_parse defaultCfg regKitchen kitchenId snap12 12
    (by decide) (by decide)
